import Mathlib

/-!
Shallow embedding of the swish on-chain payment engine
(`src/contracts/src/PaymentProcessor.sol`, `src/contracts/src/RecurringPayment.sol`,
the `TokenRegistry` and `DocumentRegistry` contracts).

Modelling conventions, stated once:
* `uint256`, `bytes32` and `address` values are `Nat`; the zero value plays the
  role of Solidity's null address / zero hash.  Solidity 0.8 checked arithmetic
  is modelled with explicit guards (`mulCheck`, `subCheck`, `addCheck`,
  `powCheck`) that fail with `Err.overflow` exactly when the source would
  revert with an arithmetic panic.
* EVM storage mappings are total functions with all-zero defaults, exactly as
  in the EVM (`payments[k]` of an unset key is the all-zero record).
* A reverting external call is `Except.error`; the transactional (revert)
  semantics of the EVM is the wrapper `applyPP` / `applyRP` / `applyDR` /
  `applyW`: on error the pre-state is kept unchanged.
* `keccak256(abi.encodePacked(...))` is modelled as a collision-free packing:
  mapping keys that the source indexes by a hash of a tuple are indexed by the
  tuple itself, and freshly derived identifiers use the injective Cantor
  pairing `pair2`.
* `ECDSA.recover` over the EIP-191-prefixed message hash is modelled by an
  abstract parameter `recover : List Nat → Msg5 → Option Address`; `none`
  models a malformed signature (the OpenZeppelin library reverts there).
* ERC-20 token ledgers are a balance table `token → holder → Nat` inside the
  state; `safeTransferFrom`/`safeTransfer` move balances and revert on
  insufficient funds.  Allowance bookkeeping is elided (it can only add more
  revert cases, which the theorems already treat as failure).
-/

namespace Swish

abbrev Address := Nat
abbrev Bytes32 := Nat

/-- The modulus of `uint256` arithmetic; reaching it reverts in Solidity 0.8. -/
def UINT256_LIMIT : Nat := 2 ^ 256

/-- Revert reasons of the embedded contracts, one constructor per distinct
`require` / panic site that the claims mention. -/
inductive Err where
  | invalidPayee
  | invalidToken
  | zeroAmount
  | paymentIdUsed
  | alreadyProcessed
  | invalidSignature
  | notPaymentManager
  | arrayLengthMismatch
  | overflow
  | insufficientBalance
  | subscriptionAbsent
  | subscriptionNotActive
  | paymentNotDue
  | notAuthorized
  | tokenUnknown
  | priceUnavailable
  | docInvalidHash
  | docAlreadyRegistered
  | docNotRegistered
  | docAlreadyRevoked
  | notDocumentManager
deriving DecidableEq, Repr

/-- The spec's §7 error taxonomy: which revert reasons are `StateConflictError`
(duplicate identifier/fingerprint, subscription not active, payment not yet
due, document already registered or already revoked). -/
def Err.isStateConflict : Err → Bool
  | .paymentIdUsed => true
  | .alreadyProcessed => true
  | .subscriptionAbsent => true
  | .subscriptionNotActive => true
  | .paymentNotDue => true
  | .docAlreadyRegistered => true
  | .docAlreadyRevoked => true
  | _ => false

/-- Checked `uint256` multiplication (Solidity 0.8 reverts on overflow). -/
def mulCheck (a b : Nat) : Except Err Nat :=
  if a * b < UINT256_LIMIT then .ok (a * b) else .error .overflow

/-- Checked `uint256` addition. -/
def addCheck (a b : Nat) : Except Err Nat :=
  if a + b < UINT256_LIMIT then .ok (a + b) else .error .overflow

/-- Checked `uint256` subtraction (reverts on underflow). -/
def subCheck (a b : Nat) : Except Err Nat :=
  if b ≤ a then .ok (a - b) else .error .overflow

/-- Checked `uint256` exponentiation, used for `10 ** decimals`. -/
def powCheck (a b : Nat) : Except Err Nat :=
  if a ^ b < UINT256_LIMIT then .ok (a ^ b) else .error .overflow

/-- Whether a call completed without reverting. -/
def isOkE {α : Type} : Except Err α → Bool
  | .ok _ => true
  | .error _ => false

/-- Whether a call reverted with a `StateConflictError`-class reason. -/
def errStateConflict {α : Type} : Except Err α → Bool
  | .error e => e.isStateConflict
  | .ok _ => false

theorem isOkE_iff {α : Type} {x : Except Err α} :
    isOkE x = true ↔ ∃ a, x = .ok a := by
  cases x <;> simp [isOkE]

theorem isOkE_false_iff {α : Type} {x : Except Err α} :
    isOkE x = false ↔ ∃ e, x = .error e := by
  cases x <;> simp [isOkE]

theorem exceptBind_ok {α β : Type} {x : Except Err α} {f : α → Except Err β} {b : β} :
    (x >>= f) = .ok b ↔ ∃ a, x = .ok a ∧ f a = .ok b := by
  cases x <;> simp [Bind.bind, Except.bind]

theorem mulCheck_ok {a b c : Nat} : mulCheck a b = .ok c ↔ a * b < UINT256_LIMIT ∧ c = a * b := by
  unfold mulCheck; split <;> simp_all [eq_comm]

theorem addCheck_ok {a b c : Nat} : addCheck a b = .ok c ↔ a + b < UINT256_LIMIT ∧ c = a + b := by
  unfold addCheck; split <;> simp_all [eq_comm]

theorem subCheck_ok {a b c : Nat} : subCheck a b = .ok c ↔ b ≤ a ∧ c = a - b := by
  unfold subCheck; split <;> simp_all [eq_comm]

theorem powCheck_ok {a b c : Nat} : powCheck a b = .ok c ↔ a ^ b < UINT256_LIMIT ∧ c = a ^ b := by
  unfold powCheck; split <;> simp_all [eq_comm]

/-! ## PaymentProcessor (`src/contracts/src/PaymentProcessor.sol`) -/

/-- `IPaymentProcessor.PaymentRecord`, the on-chain record of a processed
payment. -/
structure PaymentRecord where
  paymentId : Bytes32
  payer : Address
  payee : Address
  tokenAddress : Address
  amount : Nat
  feeAmount : Nat
  timestamp : Nat
  referenceHash : Bytes32
deriving DecidableEq, Repr

/-- The all-zero record: what an EVM mapping returns for an unset key. -/
def PaymentRecord.zero : PaymentRecord := ⟨0, 0, 0, 0, 0, 0, 0, 0⟩

/-- The payment fingerprint `keccak256(abi.encodePacked(paymentId, payee,
token, amount))`, modelled collision-freely as the tuple itself. -/
abbrev Fingerprint := Bytes32 × Address × Address × Nat

/-- The message signed for `processPayment`: `(paymentId, payee, token,
amount, referenceHash)` (the source hashes this tuple and applies the EIP-191
prefix before recovery; the hashing is modelled as the identity on tuples). -/
abbrev Msg5 := Bytes32 × Address × Address × Nat × Bytes32

/-- Storage of the `PaymentProcessor` contract, together with the ERC-20
balance tables it acts on. -/
structure PPState where
  feeCollector : Address
  platformFeePercentage : Nat
  payments : Bytes32 → PaymentRecord
  processedPayments : Fingerprint → Bool
  isPaymentManager : Address → Bool
  balances : Address → Address → Nat

/-- Pure balance-table effect of one ERC-20 transfer: debit `from`, credit
`to` (in that order, as ERC-20 does, so `from = to` is a net no-op). -/
def creditDebit (bal : Address → Address → Nat) (token fromA toA : Address) (amt : Nat) :
    Address → Address → Nat :=
  let deb := fun t a => if t = token ∧ a = fromA then bal t a - amt else bal t a
  fun t a => if t = token ∧ a = toA then deb t a + amt else deb t a

/-- `SafeERC20.safeTransferFrom` (and `safeTransfer`, with `from` the
contract): reverts when `from` lacks the funds, otherwise moves `amt`. -/
def safeTransferFrom (token fromA toA : Address) (amt : Nat) (s : PPState) :
    Except Err PPState :=
  if amt ≤ s.balances token fromA then
    .ok { s with balances := creditDebit s.balances token fromA toA amt }
  else .error .insufficientBalance

theorem safeTransferFrom_ok {token fromA toA amt s s'} :
    safeTransferFrom token fromA toA amt s = .ok s' ↔
      amt ≤ s.balances token fromA ∧
        s' = { s with balances := creditDebit s.balances token fromA toA amt } := by
  unfold safeTransferFrom; split <;> simp_all [eq_comm]

/-- The signature gate of `processPayment` (lines 86–98 of the source): a
caller holding `PAYMENT_MANAGER_ROLE` passes outright; anyone else must supply
a signature over `(paymentId, payee, token, amount, referenceHash)` that
recovers to a payment manager. -/
def checkAuthorization (recover : List Nat → Msg5 → Option Address) (s : PPState)
    (sender : Address) (paymentId : Bytes32) (payee tokenAddress : Address)
    (amount : Nat) (referenceHash : Bytes32) (signature : List Nat) :
    Except Err Unit :=
  if s.isPaymentManager sender then .ok ()
  else
    match recover signature (paymentId, payee, tokenAddress, amount, referenceHash) with
    | none => .error .invalidSignature
    | some signer => if s.isPaymentManager signer then .ok () else .error .invalidSignature

/-- `PaymentProcessor.processPayment` (lines 68–139 of the source), with
`sender = msg.sender` and `now = block.timestamp`. -/
def processPayment (recover : List Nat → Msg5 → Option Address) (sender : Address)
    (paymentId : Bytes32) (payee tokenAddress : Address) (amount : Nat)
    (referenceHash : Bytes32) (signature : List Nat) (now : Nat)
    (s : PPState) : Except Err PPState :=
  if payee = 0 then .error .invalidPayee
  else if tokenAddress = 0 then .error .invalidToken
  else if amount = 0 then .error .zeroAmount
  else if (s.payments paymentId).paymentId ≠ 0 then .error .paymentIdUsed
  else if s.processedPayments (paymentId, payee, tokenAddress, amount) then .error .alreadyProcessed
  else
    match checkAuthorization recover s sender paymentId payee tokenAddress amount
        referenceHash signature with
    | .error e => .error e
    | .ok _ => do
      let prod ← mulCheck amount s.platformFeePercentage
      let feeAmount := prod / 10000
      let payeeAmount ← subCheck amount feeAmount
      let s1 : PPState := { s with
        processedPayments := fun k =>
          if k = (paymentId, payee, tokenAddress, amount) then true
          else s.processedPayments k,
        payments := fun k =>
          if k = paymentId then
            { paymentId := paymentId, payer := sender, payee := payee,
              tokenAddress := tokenAddress, amount := amount, feeAmount := feeAmount,
              timestamp := now, referenceHash := referenceHash }
          else s.payments k }
      let s2 ← safeTransferFrom tokenAddress sender payee payeeAmount s1
      if 0 < feeAmount then safeTransferFrom tokenAddress sender s.feeCollector feeAmount s2
      else pure s2

/-- EVM transactional semantics: a reverting call leaves the state unchanged. -/
def applyPP (f : PPState → Except Err PPState) (s : PPState) : PPState :=
  match f s with
  | .ok s' => s'
  | .error _ => s

theorem applyPP_of_ok {f : PPState → Except Err PPState} {s s'}
    (h : f s = .ok s') : applyPP f s = s' := by
  unfold applyPP; rw [h]

theorem applyPP_of_err {f : PPState → Except Err PPState} {s}
    (h : isOkE (f s) = false) : applyPP f s = s := by
  obtain ⟨e, he⟩ := isOkE_false_iff.mp h
  unfold applyPP; rw [he]

/-- Success inversion for `processPayment`: everything one successful call
guarantees about its inputs and its post-state. -/
theorem processPayment_ok {recover sender paymentId payee tokenAddress amount
    referenceHash signature now s s'}
    (h : processPayment recover sender paymentId payee tokenAddress amount
        referenceHash signature now s = .ok s') :
    payee ≠ 0 ∧ tokenAddress ≠ 0 ∧ amount ≠ 0 ∧
    (s.payments paymentId).paymentId = 0 ∧
    s.processedPayments (paymentId, payee, tokenAddress, amount) = false ∧
    checkAuthorization recover s sender paymentId payee tokenAddress amount
      referenceHash signature = .ok () ∧
    amount * s.platformFeePercentage / 10000 ≤ amount ∧
    s'.feeCollector = s.feeCollector ∧
    s'.platformFeePercentage = s.platformFeePercentage ∧
    s'.isPaymentManager = s.isPaymentManager ∧
    s'.payments = (fun k =>
      if k = paymentId then
        { paymentId := paymentId, payer := sender, payee := payee,
          tokenAddress := tokenAddress, amount := amount,
          feeAmount := amount * s.platformFeePercentage / 10000,
          timestamp := now, referenceHash := referenceHash }
      else s.payments k) ∧
    s'.processedPayments = (fun k =>
      if k = (paymentId, payee, tokenAddress, amount) then true
      else s.processedPayments k) ∧
    s'.balances =
      (if 0 < amount * s.platformFeePercentage / 10000 then
        creditDebit
          (creditDebit s.balances tokenAddress sender payee
            (amount - amount * s.platformFeePercentage / 10000))
          tokenAddress sender s.feeCollector
          (amount * s.platformFeePercentage / 10000)
      else
        creditDebit s.balances tokenAddress sender payee
          (amount - amount * s.platformFeePercentage / 10000)) := by
  unfold processPayment at h
  by_cases h1 : payee = 0
  · rw [if_pos h1] at h; exact Except.noConfusion h
  rw [if_neg h1] at h
  by_cases h2 : tokenAddress = 0
  · rw [if_pos h2] at h; exact Except.noConfusion h
  rw [if_neg h2] at h
  by_cases h3 : amount = 0
  · rw [if_pos h3] at h; exact Except.noConfusion h
  rw [if_neg h3] at h
  by_cases h4 : (s.payments paymentId).paymentId ≠ 0
  · rw [if_pos h4] at h; exact Except.noConfusion h
  rw [if_neg h4] at h
  by_cases h5 : s.processedPayments (paymentId, payee, tokenAddress, amount) = true
  · rw [if_pos h5] at h; exact Except.noConfusion h
  rw [if_neg h5] at h
  cases hauth : checkAuthorization recover s sender paymentId payee tokenAddress amount
      referenceHash signature with
  | error e => rw [hauth] at h; exact Except.noConfusion h
  | ok u =>
    rw [hauth] at h
    simp only [exceptBind_ok, mulCheck_ok, subCheck_ok, safeTransferFrom_ok] at h
    obtain ⟨prod, ⟨hlt, rfl⟩, pa, ⟨hfee, rfl⟩, s2, ⟨hble, hs2⟩, hlast⟩ := h
    subst hs2
    refine ⟨h1, h2, h3, not_not.mp h4, by simpa using h5, ?_, hfee, ?_⟩
    · cases u; rfl
    · by_cases hpos : 0 < amount * s.platformFeePercentage / 10000
      · rw [if_pos hpos] at hlast ⊢
        simp only [safeTransferFrom_ok] at hlast
        obtain ⟨hble2, rfl⟩ := hlast
        simp
      · rw [if_neg hpos] at hlast ⊢
        simp only [Pure.pure, Except.pure, Except.ok.injEq] at hlast
        subst hlast
        simp

/-- Failure of `processPayment` whenever the stored record under the supplied
identifier has a nonzero `paymentId` field: the call reverts, and when the
rest of the arguments are themselves valid it reverts precisely with the
duplicate-identifier reason. -/
theorem processPayment_err_of_id_used {recover : List Nat → Msg5 → Option Address}
    {sender : Address} {paymentId : Bytes32} {payee tokenAddress : Address}
    {amount : Nat} {referenceHash : Bytes32} {signature : List Nat} {now : Nat}
    {s : PPState} (hid : (s.payments paymentId).paymentId ≠ 0) :
    isOkE (processPayment recover sender paymentId payee tokenAddress amount
        referenceHash signature now s) = false ∧
      (payee ≠ 0 → tokenAddress ≠ 0 → amount ≠ 0 →
        processPayment recover sender paymentId payee tokenAddress amount
          referenceHash signature now s = .error .paymentIdUsed) := by
  unfold processPayment
  by_cases h1 : payee = 0
  · simp [h1, isOkE]
  by_cases h2 : tokenAddress = 0
  · simp [h1, h2, isOkE]
  by_cases h3 : amount = 0
  · simp [h1, h2, h3, isOkE]
  · simp [h1, h2, h3, hid, isOkE]

/-- C1 (amended): for every nonzero payment identifier, once `processPayment`
has accepted it, any second call with the same identifier reverts — with the
`StateConflictError`-class duplicate-identifier reason whenever the second
call's payee, token and amount are themselves valid — and, by revert
semantics, leaves the stored `PaymentRecord` (and all other state) unchanged.
The zero identifier is excluded: see the counterexample. -/
theorem processPayment_nonzero_id_replay_rejected
    (recover recover2 : List Nat → Msg5 → Option Address) (sender sender2 : Address)
    (paymentId : Bytes32) (payee tokenAddress : Address) (amount : Nat)
    (referenceHash : Bytes32) (signature signature2 : List Nat) (now now2 : Nat)
    (payee2 tokenAddress2 : Address) (amount2 : Nat) (referenceHash2 : Bytes32)
    (s : PPState) (hid : paymentId ≠ 0)
    (h1 : isOkE (processPayment recover sender paymentId payee tokenAddress amount
        referenceHash signature now s) = true) :
    isOkE (processPayment recover2 sender2 paymentId payee2 tokenAddress2 amount2
        referenceHash2 signature2 now2
        (applyPP (processPayment recover sender paymentId payee tokenAddress amount
          referenceHash signature now) s)) = false ∧
    (payee2 ≠ 0 → tokenAddress2 ≠ 0 → amount2 ≠ 0 →
      errStateConflict (processPayment recover2 sender2 paymentId payee2 tokenAddress2
        amount2 referenceHash2 signature2 now2
        (applyPP (processPayment recover sender paymentId payee tokenAddress amount
          referenceHash signature now) s)) = true) ∧
    applyPP (processPayment recover2 sender2 paymentId payee2 tokenAddress2 amount2
        referenceHash2 signature2 now2)
      (applyPP (processPayment recover sender paymentId payee tokenAddress amount
        referenceHash signature now) s) =
      applyPP (processPayment recover sender paymentId payee tokenAddress amount
        referenceHash signature now) s := by
  obtain ⟨s1, hs1⟩ := isOkE_iff.mp h1
  rw [applyPP_of_ok hs1]
  have hrec := (processPayment_ok hs1).2.2.2.2.2.2.2.2.2.2.1
  have hstored : (s1.payments paymentId).paymentId = paymentId := by
    rw [hrec]; simp
  have hne : (s1.payments paymentId).paymentId ≠ 0 := by rw [hstored]; exact hid
  have hfail := @processPayment_err_of_id_used recover2 sender2 paymentId payee2
    tokenAddress2 amount2 referenceHash2 signature2 now2 s1 hne
  refine ⟨hfail.1, ?_, applyPP_of_err hfail.1⟩
  intro hp ht ha
  rw [hfail.2 hp ht ha]
  rfl

/-- A recovery oracle that never recovers a signer (all calls that reach the
signature check with it revert; payment-manager callers never consult it). -/
def recover0 : List Nat → Msg5 → Option Address := fun _ _ => none

/-- A deployed-processor state: fee collector `9`, fee `250` bps, empty
payment tables, address `1` holding `PAYMENT_MANAGER_ROLE`, every holder
funded with `1000000` units of every token. -/
def ppC1State : PPState where
  feeCollector := 9
  platformFeePercentage := 250
  payments := fun _ => PaymentRecord.zero
  processedPayments := fun _ => false
  isPaymentManager := fun a => a == 1
  balances := fun _ _ => 1000000

/-- C1 counterexample: under the zero payment identifier the claim fails.
`processPayment` with `paymentId = 0`, payee `5`, token `7`, amount `100` is
accepted, and a second call with the same identifier `0` but payee `6` is
accepted as well (the stored record's `paymentId` field is `0`, which the
`payments[_paymentId].paymentId == bytes32(0)` check cannot distinguish from
an unused identifier), instead of failing with a `StateConflictError`. -/
theorem processPayment_zero_id_replay_accepted :
    isOkE (processPayment recover0 1 0 5 7 100 0 [] 11 ppC1State) = true ∧
    isOkE (processPayment recover0 1 0 5 7 100 0 [] 11 ppC1State >>=
      processPayment recover0 1 0 6 7 100 0 [] 12) = true := by
  exact ⟨rfl, rfl⟩

/-- Witness for the amended C1 theorem, at identifier `21`: the first call is
accepted and the replay (even with a different payee `6`) reverts with the
duplicate-identifier `StateConflictError`. -/
theorem processPayment_nonzero_id_replay_rejected_witness :
    isOkE (processPayment recover0 1 21 6 7 100 0 [] 12
      (applyPP (processPayment recover0 1 21 5 7 100 0 [] 11) ppC1State)) = false ∧
    errStateConflict (processPayment recover0 1 21 6 7 100 0 [] 12
      (applyPP (processPayment recover0 1 21 5 7 100 0 [] 11) ppC1State)) = true := by
  have h := processPayment_nonzero_id_replay_rejected recover0 recover0 1 1 21 5 7 100 0
    [] [] 11 12 6 7 100 0 ppC1State (by decide) (by rfl)
  exact ⟨h.1, h.2.1 (by decide) (by decide) (by decide)⟩

/-- C3: for every accepted single payment (with payer, payee and fee collector
pairwise distinct so the three balance deltas are separately observable), the
stored fee is `floor(amount * feeBps / 10000)`, net plus fee re-assembles the
gross amount, the payee's balance grows by exactly the net amount and the fee
collector's by exactly the fee. -/
theorem processPayment_fee_split
    (recover : List Nat → Msg5 → Option Address) (sender : Address)
    (paymentId : Bytes32) (payee tokenAddress : Address) (amount : Nat)
    (referenceHash : Bytes32) (signature : List Nat) (now : Nat) (s : PPState)
    (hok : isOkE (processPayment recover sender paymentId payee tokenAddress amount
        referenceHash signature now s) = true)
    (hsp : sender ≠ payee) (hpc : payee ≠ s.feeCollector) (hsc : sender ≠ s.feeCollector) :
    ((applyPP (processPayment recover sender paymentId payee tokenAddress amount
        referenceHash signature now) s).payments paymentId).feeAmount =
      amount * s.platformFeePercentage / 10000 ∧
    ((applyPP (processPayment recover sender paymentId payee tokenAddress amount
        referenceHash signature now) s).payments paymentId).amount = amount ∧
    (amount - amount * s.platformFeePercentage / 10000) +
      amount * s.platformFeePercentage / 10000 = amount ∧
    (applyPP (processPayment recover sender paymentId payee tokenAddress amount
        referenceHash signature now) s).balances tokenAddress payee =
      s.balances tokenAddress payee +
        (amount - amount * s.platformFeePercentage / 10000) ∧
    (applyPP (processPayment recover sender paymentId payee tokenAddress amount
        referenceHash signature now) s).balances tokenAddress s.feeCollector =
      s.balances tokenAddress s.feeCollector +
        amount * s.platformFeePercentage / 10000 := by
  obtain ⟨s', hs'⟩ := isOkE_iff.mp hok
  rw [applyPP_of_ok hs']
  obtain ⟨hp, ht, ha, hid, hfp, hauth, hfee, hfc, hpf, hmgr, hpay, hproc, hbal⟩ :=
    processPayment_ok hs'
  refine ⟨by rw [hpay]; simp, by rw [hpay]; simp, Nat.sub_add_cancel hfee, ?_, ?_⟩
  · rw [hbal]
    by_cases hpos : 0 < amount * s.platformFeePercentage / 10000
    · rw [if_pos hpos]
      simp [creditDebit, hpc, Ne.symm hsp]
    · rw [if_neg hpos]
      simp [creditDebit, Ne.symm hsp]
  · rw [hbal]
    by_cases hpos : 0 < amount * s.platformFeePercentage / 10000
    · rw [if_pos hpos]
      simp [creditDebit, Ne.symm hsc, Ne.symm hpc]
    · rw [if_neg hpos]
      have hz : amount * s.platformFeePercentage / 10000 = 0 :=
        Nat.le_zero.mp (Nat.not_lt.mp hpos)
      simp [creditDebit, Ne.symm hsc, Ne.symm hpc, hz]

/-- The spec's example deployment for C3: fee collector `9`, `250` bps,
payment manager `1` holding `200000000` six-decimal units of token `7`. -/
def ppC3State : PPState where
  feeCollector := 9
  platformFeePercentage := 250
  payments := fun _ => PaymentRecord.zero
  processedPayments := fun _ => false
  isPaymentManager := fun a => a == 1
  balances := fun _ a => if a = 1 then 200000000 else 0

/-- Witness for C3, the spec's example scenario: amount `100000000` at
`250` bps pays the payee `97500000` and the fee collector `2500000`. -/
theorem processPayment_fee_split_witness :
    (applyPP (processPayment recover0 1 21 5 7 100000000 0 [] 11) ppC3State).balances 7 5 =
      ppC3State.balances 7 5 + 97500000 ∧
    (applyPP (processPayment recover0 1 21 5 7 100000000 0 [] 11)
        ppC3State).balances 7 ppC3State.feeCollector =
      ppC3State.balances 7 ppC3State.feeCollector + 2500000 ∧
    ((applyPP (processPayment recover0 1 21 5 7 100000000 0 [] 11)
        ppC3State).payments 21).feeAmount = 2500000 := by
  have h := processPayment_fee_split recover0 1 21 5 7 100000000 0 [] 11 ppC3State
    rfl (by decide) (by decide) (by decide)
  exact ⟨h.2.2.2.1, h.2.2.2.2, h.1⟩

/-- C5: the authorization path of `processPayment`.  A caller holding the
payment-manager capability is accepted without any signature check (the
outcome does not depend on the signature argument at all); any other caller's
call reverts when no signer can be recovered or the recovered signer is not a
payment manager, and conversely a non-manager call that is accepted recovered
a payment-manager signer from the signature over exactly
`(paymentId, payee, token, amount, referenceHash)`. -/
theorem processPayment_authorization
    (recover : List Nat → Msg5 → Option Address) (sender : Address)
    (paymentId : Bytes32) (payee tokenAddress : Address) (amount : Nat)
    (referenceHash : Bytes32) (signature signature2 : List Nat) (now : Nat)
    (s : PPState) :
    (s.isPaymentManager sender = true →
      processPayment recover sender paymentId payee tokenAddress amount
        referenceHash signature now s =
      processPayment recover sender paymentId payee tokenAddress amount
        referenceHash signature2 now s) ∧
    (s.isPaymentManager sender = false →
      recover signature (paymentId, payee, tokenAddress, amount, referenceHash) = none →
      isOkE (processPayment recover sender paymentId payee tokenAddress amount
        referenceHash signature now s) = false) ∧
    (∀ a, s.isPaymentManager sender = false →
      recover signature (paymentId, payee, tokenAddress, amount, referenceHash) = some a →
      s.isPaymentManager a = false →
      isOkE (processPayment recover sender paymentId payee tokenAddress amount
        referenceHash signature now s) = false) ∧
    (s.isPaymentManager sender = false →
      isOkE (processPayment recover sender paymentId payee tokenAddress amount
        referenceHash signature now s) = true →
      ∃ a, recover signature (paymentId, payee, tokenAddress, amount, referenceHash) = some a ∧
        s.isPaymentManager a = true) := by
  refine ⟨?_, ?_, ?_, ?_⟩
  · intro hmgr
    simp [processPayment, checkAuthorization, hmgr]
  · intro hmgr hrec
    have hca : checkAuthorization recover s sender paymentId payee tokenAddress amount
        referenceHash signature = .error .invalidSignature := by
      simp [checkAuthorization, hmgr, hrec]
    unfold processPayment
    rw [hca]
    split
    · rfl
    split
    · rfl
    split
    · rfl
    split
    · rfl
    split
    · rfl
    rfl
  · intro a hmgr hrec hna
    have hca : checkAuthorization recover s sender paymentId payee tokenAddress amount
        referenceHash signature = .error .invalidSignature := by
      simp [checkAuthorization, hmgr, hrec, hna]
    unfold processPayment
    rw [hca]
    split
    · rfl
    split
    · rfl
    split
    · rfl
    split
    · rfl
    split
    · rfl
    rfl
  · intro hmgr hok
    obtain ⟨s', hs'⟩ := isOkE_iff.mp hok
    have hauth := (processPayment_ok hs').2.2.2.2.2.1
    unfold checkAuthorization at hauth
    rw [if_neg (by simp [hmgr])] at hauth
    cases hr : recover signature (paymentId, payee, tokenAddress, amount, referenceHash) with
    | none => rw [hr] at hauth; exact Except.noConfusion hauth
    | some a =>
      rw [hr] at hauth
      by_cases hma : s.isPaymentManager a = true
      · exact ⟨a, rfl, hma⟩
      · simp [hma] at hauth

/-- A recovery oracle for the C5 witness: signature `[1]` recovers the
payment manager `8`, signature `[2]` recovers the non-manager `4`, anything
else recovers nobody. -/
def recoverC5 : List Nat → Msg5 → Option Address := fun sig _ =>
  if sig = [1] then some 8 else if sig = [2] then some 4 else none

/-- A processor state for the C5 witness: `8` is the only payment manager;
the non-manager `2` is funded. -/
def ppC5State : PPState where
  feeCollector := 9
  platformFeePercentage := 250
  payments := fun _ => PaymentRecord.zero
  processedPayments := fun _ => false
  isPaymentManager := fun a => a == 8
  balances := fun _ _ => 1000

/-- Witness for C5: the non-manager caller `2` is rejected both when the
signature recovers the non-manager `4` and when it recovers nobody, while for
the manager caller `8` the outcome is signature-independent. -/
theorem processPayment_authorization_witness :
    isOkE (processPayment recoverC5 2 21 5 7 100 3 [2] 11 ppC5State) = false ∧
    isOkE (processPayment recoverC5 2 21 5 7 100 3 [3] 11 ppC5State) = false ∧
    processPayment recoverC5 8 21 5 7 100 3 [0] 11 ppC5State =
      processPayment recoverC5 8 21 5 7 100 3 [9] 11 ppC5State := by
  refine ⟨?_, ?_, ?_⟩
  · exact (processPayment_authorization recoverC5 2 21 5 7 100 3 [2] [2] 11
      ppC5State).2.2.1 4 (by decide) (by decide) (by decide)
  · exact (processPayment_authorization recoverC5 2 21 5 7 100 3 [3] [3] 11
      ppC5State).2.1 (by decide) (by decide)
  · exact (processPayment_authorization recoverC5 8 21 5 7 100 3 [0] [9] 11
      ppC5State).1 (by decide)

/-! ## Batch payments (`processBatchPayment`, lines 149–218 of the source) -/

/-- One batch entry `(paymentId, payee, amount, referenceHash)`; the token is
shared by the whole batch. -/
abbrev BatchItem := Bytes32 × Address × Nat × Bytes32

/-- Pointwise zip of the four parallel calldata arrays (the source checks the
lengths match before looping, so truncation never happens on a reached path). -/
def zip4 : List Bytes32 → List Address → List Nat → List Bytes32 → List BatchItem
  | a :: as, b :: bs, c :: cs, d :: ds => (a, b, c, d) :: zip4 as bs cs ds
  | _, _, _, _ => []

/-- Phase 1 of `processBatchPayment` (the first `for` loop): validate each
item, mark its fingerprint, store its record, and accumulate the gross total
and the fee total with checked additions. -/
def validateAndRecord (sender tokenAddress : Address) (now : Nat) :
    List BatchItem → Nat → Nat → PPState → Except Err (PPState × Nat × Nat)
  | [], totalAmount, totalFees, s => .ok (s, totalAmount, totalFees)
  | (paymentId, payee, amount, referenceHash) :: rest, totalAmount, totalFees, s =>
    if payee = 0 then .error .invalidPayee
    else if amount = 0 then .error .zeroAmount
    else if (s.payments paymentId).paymentId ≠ 0 then .error .paymentIdUsed
    else if s.processedPayments (paymentId, payee, tokenAddress, amount) then
      .error .alreadyProcessed
    else do
      let prod ← mulCheck amount s.platformFeePercentage
      let feeAmount := prod / 10000
      let s1 : PPState := { s with
        processedPayments := fun k =>
          if k = (paymentId, payee, tokenAddress, amount) then true
          else s.processedPayments k,
        payments := fun k =>
          if k = paymentId then
            { paymentId := paymentId, payer := sender, payee := payee,
              tokenAddress := tokenAddress, amount := amount, feeAmount := feeAmount,
              timestamp := now, referenceHash := referenceHash }
          else s.payments k }
      let totalAmount' ← addCheck totalAmount amount
      let totalFees' ← addCheck totalFees feeAmount
      validateAndRecord sender tokenAddress now rest totalAmount' totalFees' s1

/-- Phase 2 of `processBatchPayment` (the second `for` loop): pay each payee
its net amount out of the contract's (`self`'s) custody. -/
def distributeNet (self tokenAddress : Address) :
    List BatchItem → PPState → Except Err PPState
  | [], s => .ok s
  | (_, payee, amount, _) :: rest, s => do
    let prod ← mulCheck amount s.platformFeePercentage
    let payeeAmount ← subCheck amount (prod / 10000)
    let s2 ← safeTransferFrom tokenAddress self payee payeeAmount s
    distributeNet self tokenAddress rest s2

/-- `PaymentProcessor.processBatchPayment`, with `sender = msg.sender`,
`self = address(this)` and `now = block.timestamp`: payment-manager gate,
length and token checks, phase 1, pull of the gross total into custody,
phase 2, and the aggregated fee transfer. -/
def processBatchPayment (sender self tokenAddress : Address) (now : Nat)
    (paymentIds : List Bytes32) (payees : List Address) (amounts : List Nat)
    (referenceHashes : List Bytes32) (s : PPState) : Except Err PPState :=
  if ¬ s.isPaymentManager sender then .error .notPaymentManager
  else if paymentIds.length ≠ payees.length then .error .arrayLengthMismatch
  else if payees.length ≠ amounts.length then .error .arrayLengthMismatch
  else if amounts.length ≠ referenceHashes.length then .error .arrayLengthMismatch
  else if tokenAddress = 0 then .error .invalidToken
  else do
    let items := zip4 paymentIds payees amounts referenceHashes
    let (s1, totalAmount, totalFees) ← validateAndRecord sender tokenAddress now items 0 0 s
    let s2 ← safeTransferFrom tokenAddress sender self totalAmount s1
    let s3 ← distributeNet self tokenAddress items s2
    if 0 < totalFees then safeTransferFrom tokenAddress self s.feeCollector totalFees s3
    else pure s3

/-- Reachable-storage invariant of the processor: a stored record's
`paymentId` field is either zero (unset) or equal to its key (every write in
the source stores `paymentId: _paymentId` under key `_paymentId`). -/
def PPWellFormed (s : PPState) : Prop :=
  ∀ k, (s.payments k).paymentId = 0 ∨ (s.payments k).paymentId = k

/-- A batch item that fails the per-item validation of phase 1 against a
state: zero payee, zero amount, already-used identifier, or already-seen
fingerprint. -/
def BadItem (tokenAddress : Address) (s : PPState) (it : BatchItem) : Prop :=
  it.2.1 = 0 ∨ it.2.2.1 = 0 ∨ (s.payments it.1).paymentId ≠ 0 ∨
    s.processedPayments (it.1, it.2.1, tokenAddress, it.2.2.1) = true

/-- Gross total of a batch. -/
def sumAmounts (items : List BatchItem) : Nat :=
  (items.map fun it => it.2.2.1).sum

/-- Fee total of a batch at a given fee rate. -/
def sumFees (feePct : Nat) (items : List BatchItem) : Nat :=
  (items.map fun it => it.2.2.1 * feePct / 10000).sum

/-- Sequential balance-table effect of a list of same-token transfers. -/
def applyTransfers (token : Address) :
    List (Address × Address × Nat) → (Address → Address → Nat) → (Address → Address → Nat)
  | [], bal => bal
  | (fromA, toA, amt) :: rest, bal =>
    applyTransfers token rest (creditDebit bal token fromA toA amt)

theorem applyTransfers_append (token : Address) (l1 l2 : List (Address × Address × Nat)) :
    ∀ bal, applyTransfers token (l1 ++ l2) bal = applyTransfers token l2 (applyTransfers token l1 bal) := by
  induction l1 with
  | nil => intro bal; rfl
  | cons hd tl ih =>
    intro bal
    obtain ⟨f, t, a⟩ := hd
    simp only [List.cons_append, applyTransfers]
    exact ih _

theorem isOkE_bind {α β : Type} (x : Except Err α) (f : α → Except Err β) :
    isOkE (x >>= f) = (match x with | .ok a => isOkE (f a) | .error _ => false) := by
  cases x <;> rfl

/-- Phase 1 rejects any batch containing an item that is invalid against the
entry state: the earlier iterations' writes cannot launder a bad item into a
good one (fingerprints are only ever set, and under `PPWellFormed` a used
identifier stays visibly used). -/
theorem validateAndRecord_err_of_bad {sender tokenAddress : Address} {now : Nat} :
    ∀ (items : List BatchItem) (tA tF : Nat) (s : PPState), PPWellFormed s →
      (∃ it ∈ items, BadItem tokenAddress s it) →
      isOkE (validateAndRecord sender tokenAddress now items tA tF s) = false := by
  intro items
  induction items with
  | nil =>
    intro tA tF s _ hbad
    obtain ⟨it, hmem, _⟩ := hbad
    simp at hmem
  | cons hd rest ih =>
    intro tA tF s hwf hbad
    obtain ⟨it, hmem, hbad⟩ := hbad
    obtain ⟨paymentId, payee, amount, referenceHash⟩ := hd
    unfold validateAndRecord
    by_cases b1 : payee = 0
    · rw [if_pos b1]; rfl
    rw [if_neg b1]
    by_cases b2 : amount = 0
    · rw [if_pos b2]; rfl
    rw [if_neg b2]
    by_cases b3 : (s.payments paymentId).paymentId ≠ 0
    · rw [if_pos b3]; rfl
    rw [if_neg b3]
    by_cases b4 : s.processedPayments (paymentId, payee, tokenAddress, amount) = true
    · rw [if_pos b4]; rfl
    rw [if_neg b4]
    rcases List.mem_cons.mp hmem with hit | hit
    · exfalso
      subst hit
      rcases hbad with h | h | h | h
      · exact b1 h
      · exact b2 h
      · exact b3 h
      · exact b4 h
    · cases hm : mulCheck amount s.platformFeePercentage with
      | error e => simp [isOkE_bind, hm]
      | ok prod =>
        cases ha1 : addCheck tA amount with
        | error e => simp [isOkE_bind, hm, ha1]
        | ok tA2 =>
          cases ha2 : addCheck tF (prod / 10000) with
          | error e => simp [isOkE_bind, hm, ha1, ha2]
          | ok tF2 =>
            have hid0 : (s.payments paymentId).paymentId = 0 := not_not.mp b3
            have hwf1 : PPWellFormed { s with
                processedPayments := fun k =>
                  if k = (paymentId, payee, tokenAddress, amount) then true
                  else s.processedPayments k,
                payments := fun k =>
                  if k = paymentId then
                    { paymentId := paymentId, payer := sender, payee := payee,
                      tokenAddress := tokenAddress, amount := amount,
                      feeAmount := prod / 10000,
                      timestamp := now, referenceHash := referenceHash }
                  else s.payments k } := by
              intro k
              by_cases hk : k = paymentId
              · right; simp [hk]
              · simpa [hk] using hwf k
            have hbad1 : BadItem tokenAddress { s with
                processedPayments := fun k =>
                  if k = (paymentId, payee, tokenAddress, amount) then true
                  else s.processedPayments k,
                payments := fun k =>
                  if k = paymentId then
                    { paymentId := paymentId, payer := sender, payee := payee,
                      tokenAddress := tokenAddress, amount := amount,
                      feeAmount := prod / 10000,
                      timestamp := now, referenceHash := referenceHash }
                  else s.payments k } it := by
              rcases hbad with h | h | h | h
              · exact Or.inl h
              · exact Or.inr (Or.inl h)
              · refine Or.inr (Or.inr (Or.inl ?_))
                by_cases hk : it.1 = paymentId
                · have hkey : (s.payments it.1).paymentId = it.1 := by
                    rcases hwf it.1 with h0 | h0
                    · exact absurd h0 h
                    · exact h0
                  have : it.1 ≠ 0 := by rw [← hkey]; exact h
                  simpa [hk] using hk ▸ this
                · simpa [hk] using h
              · refine Or.inr (Or.inr (Or.inr ?_))
                by_cases hk : (it.1, it.2.1, tokenAddress, it.2.2.1) =
                    (paymentId, payee, tokenAddress, amount)
                · simp [hk]
                · simpa [hk] using h
            have hrec := ih tA2 tF2 _ hwf1 ⟨it, hit, hbad1⟩
            simpa [isOkE_bind, hm, ha1, ha2] using hrec

/-- Success inversion for phase 1: it never touches balances, fees or roles,
and on success the accumulators come back as the entry values plus the batch
totals. -/
theorem validateAndRecord_ok {sender tokenAddress : Address} {now : Nat} :
    ∀ (items : List BatchItem) (tA tF : Nat) (s s1 : PPState) (A F : Nat),
      validateAndRecord sender tokenAddress now items tA tF s = .ok (s1, A, F) →
      s1.balances = s.balances ∧
      s1.platformFeePercentage = s.platformFeePercentage ∧
      s1.feeCollector = s.feeCollector ∧
      s1.isPaymentManager = s.isPaymentManager ∧
      A = tA + sumAmounts items ∧
      F = tF + sumFees s.platformFeePercentage items := by
  intro items
  induction items with
  | nil =>
    intro tA tF s s1 A F h
    unfold validateAndRecord at h
    obtain ⟨h1, h2, h3⟩ : s = s1 ∧ tA = A ∧ tF = F := by
      have := Except.ok.inj h
      exact ⟨congrArg Prod.fst this, congrArg Prod.fst (congrArg Prod.snd this),
        congrArg Prod.snd (congrArg Prod.snd this)⟩
    subst h1; subst h2; subst h3
    simp [sumAmounts, sumFees]
  | cons hd rest ih =>
    intro tA tF s s1 A F h
    obtain ⟨paymentId, payee, amount, referenceHash⟩ := hd
    unfold validateAndRecord at h
    by_cases b1 : payee = 0
    · rw [if_pos b1] at h; exact Except.noConfusion h
    rw [if_neg b1] at h
    by_cases b2 : amount = 0
    · rw [if_pos b2] at h; exact Except.noConfusion h
    rw [if_neg b2] at h
    by_cases b3 : (s.payments paymentId).paymentId ≠ 0
    · rw [if_pos b3] at h; exact Except.noConfusion h
    rw [if_neg b3] at h
    by_cases b4 : s.processedPayments (paymentId, payee, tokenAddress, amount) = true
    · rw [if_pos b4] at h; exact Except.noConfusion h
    rw [if_neg b4] at h
    simp only [exceptBind_ok, mulCheck_ok, addCheck_ok] at h
    obtain ⟨prod, ⟨hm, rfl⟩, tA2, ⟨hlt1, rfl⟩, tF2, ⟨hlt2, rfl⟩, hrec⟩ := h
    have hih := ih _ _ _ _ _ _ hrec
    refine ⟨hih.1, hih.2.1, hih.2.2.1, hih.2.2.2.1, ?_, ?_⟩
    · rw [hih.2.2.2.2.1]
      simp [sumAmounts, Nat.add_assoc]
    · rw [hih.2.2.2.2.2]
      simp only [sumFees, List.map_cons, List.sum_cons]
      omega

/-- Success inversion for phase 2: its only effect is the sequence of
net-amount transfers out of custody. -/
theorem distributeNet_ok {self tokenAddress : Address} :
    ∀ (items : List BatchItem) (s s2 : PPState),
      distributeNet self tokenAddress items s = .ok s2 →
      s2.balances = applyTransfers tokenAddress
        (items.map fun it =>
          (self, it.2.1, it.2.2.1 - it.2.2.1 * s.platformFeePercentage / 10000))
        s.balances ∧
      s2.platformFeePercentage = s.platformFeePercentage ∧
      s2.feeCollector = s.feeCollector ∧
      s2.payments = s.payments := by
  intro items
  induction items with
  | nil =>
    intro s s2 h
    unfold distributeNet at h
    have := Except.ok.inj h
    subst this
    simp [applyTransfers]
  | cons hd rest ih =>
    intro s s2 h
    obtain ⟨paymentId, payee, amount, referenceHash⟩ := hd
    unfold distributeNet at h
    simp only [exceptBind_ok, mulCheck_ok, subCheck_ok, safeTransferFrom_ok] at h
    obtain ⟨prod, ⟨hm, rfl⟩, pa, ⟨hle, rfl⟩, smid, ⟨hble, hmid⟩, hrec⟩ := h
    subst hmid
    have hih := ih _ _ hrec
    refine ⟨?_, hih.2.1, hih.2.2.1, hih.2.2.2⟩
    rw [hih.1]
    simp [applyTransfers]

/-- C4: batch payment is all-or-nothing and two-phase.  If any item of the
batch is invalid against the entry state (zero payee, zero amount, used
identifier, or seen fingerprint), the whole call reverts and — by revert
semantics — no record is created and no balance changes; when the call is
accepted, the net balance effect is exactly: pull the gross sum from the
caller into custody, then pay each payee its net amount, then pay the
aggregated fee to the collector. -/
theorem processBatchPayment_all_or_nothing
    (sender self tokenAddress : Address) (now : Nat)
    (paymentIds : List Bytes32) (payees : List Address) (amounts : List Nat)
    (referenceHashes : List Bytes32) (s : PPState) (hwf : PPWellFormed s) :
    ((∃ it ∈ zip4 paymentIds payees amounts referenceHashes, BadItem tokenAddress s it) →
      isOkE (processBatchPayment sender self tokenAddress now paymentIds payees amounts
        referenceHashes s) = false ∧
      applyPP (processBatchPayment sender self tokenAddress now paymentIds payees amounts
        referenceHashes) s = s) ∧
    (isOkE (processBatchPayment sender self tokenAddress now paymentIds payees amounts
        referenceHashes s) = true →
      (applyPP (processBatchPayment sender self tokenAddress now paymentIds payees amounts
        referenceHashes) s).balances =
        applyTransfers tokenAddress
          ((sender, self, sumAmounts (zip4 paymentIds payees amounts referenceHashes)) ::
            (zip4 paymentIds payees amounts referenceHashes).map
              (fun it =>
                (self, it.2.1, it.2.2.1 - it.2.2.1 * s.platformFeePercentage / 10000)) ++
            (if 0 < sumFees s.platformFeePercentage
                (zip4 paymentIds payees amounts referenceHashes) then
              [(self, s.feeCollector,
                sumFees s.platformFeePercentage (zip4 paymentIds payees amounts referenceHashes))]
            else []))
          s.balances) := by
  constructor
  · intro hbad
    have herr : isOkE (processBatchPayment sender self tokenAddress now paymentIds payees
        amounts referenceHashes s) = false := by
      unfold processBatchPayment
      by_cases c1 : ¬ s.isPaymentManager sender
      · rw [if_pos c1]; rfl
      rw [if_neg c1]
      by_cases c2 : paymentIds.length ≠ payees.length
      · rw [if_pos c2]; rfl
      rw [if_neg c2]
      by_cases c3 : payees.length ≠ amounts.length
      · rw [if_pos c3]; rfl
      rw [if_neg c3]
      by_cases c4 : amounts.length ≠ referenceHashes.length
      · rw [if_pos c4]; rfl
      rw [if_neg c4]
      by_cases c5 : tokenAddress = 0
      · rw [if_pos c5]; rfl
      rw [if_neg c5]
      have hv := @validateAndRecord_err_of_bad sender tokenAddress now
        (zip4 paymentIds payees amounts referenceHashes) 0 0 s hwf hbad
      obtain ⟨e, he⟩ := isOkE_false_iff.mp hv
      simp [isOkE_bind, he]
    exact ⟨herr, applyPP_of_err herr⟩
  · intro hok
    obtain ⟨s', hs'⟩ := isOkE_iff.mp hok
    rw [applyPP_of_ok hs']
    unfold processBatchPayment at hs'
    by_cases c1 : ¬ s.isPaymentManager sender
    · rw [if_pos c1] at hs'; exact Except.noConfusion hs'
    rw [if_neg c1] at hs'
    by_cases c2 : paymentIds.length ≠ payees.length
    · rw [if_pos c2] at hs'; exact Except.noConfusion hs'
    rw [if_neg c2] at hs'
    by_cases c3 : payees.length ≠ amounts.length
    · rw [if_pos c3] at hs'; exact Except.noConfusion hs'
    rw [if_neg c3] at hs'
    by_cases c4 : amounts.length ≠ referenceHashes.length
    · rw [if_pos c4] at hs'; exact Except.noConfusion hs'
    rw [if_neg c4] at hs'
    by_cases c5 : tokenAddress = 0
    · rw [if_pos c5] at hs'; exact Except.noConfusion hs'
    rw [if_neg c5] at hs'
    simp only [exceptBind_ok, safeTransferFrom_ok] at hs'
    obtain ⟨⟨s1, A, F⟩, hv, s2, ⟨hble, hs2⟩, s3, hdist, hlast⟩ := hs'
    obtain ⟨hbalv, hfpv, hfcv, hmgv, hA, hF⟩ :=
      validateAndRecord_ok _ _ _ _ _ _ _ hv
    rw [Nat.zero_add] at hA hF
    subst hA
    subst hF
    subst hs2
    obtain ⟨hbald, hfpd, hfcd, hpayd⟩ := distributeNet_ok _ _ _ hdist
    by_cases hFpos : 0 < sumFees s.platformFeePercentage
        (zip4 paymentIds payees amounts referenceHashes)
    · rw [if_pos hFpos] at hlast ⊢
      rw [safeTransferFrom_ok] at hlast
      obtain ⟨hble2, rfl⟩ := hlast
      show creditDebit s3.balances tokenAddress self s.feeCollector _ = _
      rw [hbald]
      simp only [List.append_eq, applyTransfers, applyTransfers_append, hfpv, hbalv]
    · rw [if_neg hFpos] at hlast ⊢
      simp only [Pure.pure, Except.pure, Except.ok.injEq] at hlast
      subst hlast
      rw [hbald]
      simp only [List.append_eq, List.append_nil, applyTransfers, applyTransfers_append,
        hfpv, hbalv]

/-- The C4 witness deployment: manager `1` funded with `1000000` of every
token, contract address `3`, fee collector `9`, `250` bps. -/
def ppC4State : PPState where
  feeCollector := 9
  platformFeePercentage := 250
  payments := fun _ => PaymentRecord.zero
  processedPayments := fun _ => false
  isPaymentManager := fun a => a == 1
  balances := fun _ a => if a = 1 then 1000000 else 0

/-- Witness for C4: a batch with a zero payee in its second item reverts and
changes nothing, while a fully valid two-item batch settles as pull `30000`,
pay nets `9750` and `19500`, pay fees `750`. -/
theorem processBatchPayment_all_or_nothing_witness :
    (isOkE (processBatchPayment 1 3 7 11 [31, 32] [5, 0] [10000, 10000] [0, 0]
        ppC4State) = false ∧
      applyPP (processBatchPayment 1 3 7 11 [31, 32] [5, 0] [10000, 10000] [0, 0])
        ppC4State = ppC4State) ∧
    (applyPP (processBatchPayment 1 3 7 11 [31, 32] [5, 6] [10000, 20000] [0, 0])
        ppC4State).balances =
      applyTransfers 7
        ((1, 3, 30000) :: [(3, 5, 9750), (3, 6, 19500)] ++ [(3, 9, 750)])
        ppC4State.balances := by
  constructor
  · exact (processBatchPayment_all_or_nothing 1 3 7 11 [31, 32] [5, 0] [10000, 10000]
      [0, 0] ppC4State (fun _ => Or.inl rfl)).1
      ⟨(32, 0, 10000, 0), by decide, Or.inl rfl⟩
  · exact (processBatchPayment_all_or_nothing 1 3 7 11 [31, 32] [5, 6] [10000, 20000]
      [0, 0] ppC4State (fun _ => Or.inl rfl)).2 (by rfl)

/-! ## RecurringPayment (`src/contracts/src/RecurringPayment.sol`) -/

/-- The `RecurringPayment` subscription struct. -/
structure RecurringPayment where
  id : Bytes32
  payer : Address
  payee : Address
  tokenAddress : Address
  amount : Nat
  frequency : Nat
  nextPaymentDue : Nat
  isActive : Bool
  referenceId : Bytes32
deriving DecidableEq, Repr

/-- The all-zero subscription (unset mapping entry; `isActive = false`). -/
def RecurringPayment.zero : RecurringPayment := ⟨0, 0, 0, 0, 0, 0, 0, false, 0⟩

/-- Storage of the `RecurringPayment` contract.  Its `AccessControl` role set
is separate from the processor's, hence its own payment-manager table. -/
structure RPState where
  recurringPayments : Bytes32 → RecurringPayment
  isPaymentManagerRP : Address → Bool

/-- `RecurringPayment.cancelRecurringPayment` (lines 171–183 of the source):
existence check, payer-or-manager authorization, then `isActive = false`.
(The source has no check that the subscription is still active.) -/
def cancelRecurringPayment (sender : Address) (id : Bytes32) (s : RPState) :
    Except Err RPState :=
  let payment := s.recurringPayments id
  if payment.id = 0 then .error .subscriptionAbsent
  else if payment.payer = sender ∨ s.isPaymentManagerRP sender then
    .ok { s with
      recurringPayments := fun k =>
        if k = id then { payment with isActive := false } else s.recurringPayments k }
  else .error .notAuthorized

/-- EVM transactional semantics for the scheduler's state. -/
def applyRP (f : RPState → Except Err RPState) (s : RPState) : RPState :=
  match f s with
  | .ok s' => s'
  | .error _ => s

theorem applyRP_of_ok {f : RPState → Except Err RPState} {s s'}
    (h : f s = .ok s') : applyRP f s = s' := by
  unfold applyRP; rw [h]

/-- Injective Cantor pairing, the model of `keccak256(abi.encodePacked ...)`
for freshly derived identifiers. -/
def pair2 (a b : Nat) : Nat := (a + b) * (a + b + 1) / 2 + b

/-- The combined on-chain world the scheduler acts on: the processor (with
the token ledgers) plus the scheduler storage. -/
structure World where
  pp : PPState
  rp : RPState

/-- EVM transactional semantics for the combined world. -/
def applyW (f : World → Except Err World) (w : World) : World :=
  match f w with
  | .ok w' => w'
  | .error _ => w

theorem applyW_of_ok {f : World → Except Err World} {w w'}
    (h : f w = .ok w') : applyW f w = w' := by
  unfold applyW; rw [h]

/-- `RecurringPayment.executeRecurringPayment` (lines 100–150 of the source),
callable by anyone: existence/active/due checks, schedule advance from the
previous due date, derivation of a fresh payment id and reference hash, and
delegation to `processPayment` with the scheduler contract (`self`) as the
calling payer and an empty signature.  (The `token.approve` call is elided:
allowances are not modelled.) -/
def executeRecurringPayment (recover : List Nat → Msg5 → Option Address)
    (self : Address) (id : Bytes32) (now : Nat) (w : World) : Except Err World :=
  let payment := w.rp.recurringPayments id
  if payment.id = 0 then .error .subscriptionAbsent
  else if ¬ payment.isActive then .error .subscriptionNotActive
  else if now < payment.nextPaymentDue then .error .paymentNotDue
  else
    let previousDueDate := payment.nextPaymentDue
    let rp2 : RPState := { w.rp with
      recurringPayments := fun k =>
        if k = id then
          { payment with nextPaymentDue := previousDueDate + payment.frequency }
        else w.rp.recurringPayments k }
    let paymentId :=
      pair2 (pair2 (pair2 (pair2 payment.id payment.payer) payment.payee) previousDueDate) now
    let referenceHash := pair2 1 (pair2 payment.id previousDueDate)
    match processPayment recover self paymentId payment.payee payment.tokenAddress
        payment.amount referenceHash [] now w.pp with
    | .error e => .error e
    | .ok pp2 => .ok { pp := pp2, rp := rp2 }

/-- C2 (amended): `cancelRecurringPayment` fails iff the subscription is
absent or the caller is neither the original payer nor a payment-manager;
an authorized cancel succeeds regardless of the Active/Cancelled status,
always leaving the subscription Cancelled — in particular a second cancel by
the same authorized caller succeeds as well (it does not fail). -/
theorem cancelRecurringPayment_authorization (sender : Address) (id : Bytes32) (s : RPState) :
    ((s.recurringPayments id).id = 0 →
      cancelRecurringPayment sender id s = .error .subscriptionAbsent) ∧
    ((s.recurringPayments id).id ≠ 0 →
      ¬((s.recurringPayments id).payer = sender ∨ s.isPaymentManagerRP sender = true) →
      cancelRecurringPayment sender id s = .error .notAuthorized) ∧
    ((s.recurringPayments id).id ≠ 0 →
      ((s.recurringPayments id).payer = sender ∨ s.isPaymentManagerRP sender = true) →
      isOkE (cancelRecurringPayment sender id s) = true ∧
      ((applyRP (cancelRecurringPayment sender id) s).recurringPayments id).isActive = false ∧
      isOkE (cancelRecurringPayment sender id
        (applyRP (cancelRecurringPayment sender id) s)) = true) := by
  refine ⟨?_, ?_, ?_⟩
  · intro h
    simp [cancelRecurringPayment, h]
  · intro h1 h2
    simp only [cancelRecurringPayment]
    rw [if_neg h1, if_neg h2]
  · intro h1 h2
    have hcz : cancelRecurringPayment sender id s = .ok { s with
        recurringPayments := fun k =>
          if k = id then { s.recurringPayments id with isActive := false }
          else s.recurringPayments k } := by
      simp only [cancelRecurringPayment]
      rw [if_neg h1, if_pos h2]
    rw [applyRP_of_ok hcz]
    refine ⟨by rw [hcz]; rfl, by simp, ?_⟩
    simp only [cancelRecurringPayment]
    rw [if_neg (by simpa using h1), if_pos (by simpa using h2)]
    rfl

/-- A scheduler state holding one already-cancelled subscription `42` whose
payer is `5`. -/
def rpC2State : RPState where
  recurringPayments := fun k =>
    if k = 42 then ⟨42, 5, 6, 7, 10, 100, 50, false, 0⟩ else RecurringPayment.zero
  isPaymentManagerRP := fun _ => false

/-- C2 counterexample: subscription `42` is already Cancelled
(`isActive = false`), yet `cancelRecurringPayment` by its payer succeeds
instead of failing — the source never checks `isActive`, so a second cancel of
the same subscription does not fail. -/
theorem cancelRecurringPayment_inactive_accepted :
    (rpC2State.recurringPayments 42).isActive = false ∧
    isOkE (cancelRecurringPayment 5 42 rpC2State) = true := ⟨rfl, rfl⟩

/-- A scheduler state holding one Active subscription `42` with payer `5`. -/
def rpC2ActiveState : RPState where
  recurringPayments := fun k =>
    if k = 42 then ⟨42, 5, 6, 7, 10, 100, 50, true, 0⟩ else RecurringPayment.zero
  isPaymentManagerRP := fun _ => false

/-- Witness for the amended C2 theorem: the payer cancels the active
subscription `42`; it succeeds, leaves it Cancelled, and a repeat cancel
still succeeds. -/
theorem cancelRecurringPayment_authorization_witness :
    isOkE (cancelRecurringPayment 5 42 rpC2ActiveState) = true ∧
    ((applyRP (cancelRecurringPayment 5 42) rpC2ActiveState).recurringPayments 42).isActive
      = false ∧
    isOkE (cancelRecurringPayment 5 42
      (applyRP (cancelRecurringPayment 5 42) rpC2ActiveState)) = true := by
  exact (cancelRecurringPayment_authorization 5 42 rpC2ActiveState).2.2 (by decide)
    (Or.inl (by decide))

/-- C6: `executeRecurringPayment` is accepted only when the subscription
exists, is Active and is due (`nextDueAt ≤ now` — so it fails unless all
three hold), and a successful execution at any time `T ≥ nextDueAt` advances
`nextDueAt` to exactly the previous due date plus the frequency,
independently of `T`. -/
theorem executeRecurringPayment_schedule (recover : List Nat → Msg5 → Option Address)
    (self : Address) (id : Bytes32) (now : Nat) (w : World)
    (hok : isOkE (executeRecurringPayment recover self id now w) = true) :
    (w.rp.recurringPayments id).id ≠ 0 ∧
    (w.rp.recurringPayments id).isActive = true ∧
    (w.rp.recurringPayments id).nextPaymentDue ≤ now ∧
    ((applyW (executeRecurringPayment recover self id now) w).rp.recurringPayments
        id).nextPaymentDue =
      (w.rp.recurringPayments id).nextPaymentDue + (w.rp.recurringPayments id).frequency := by
  obtain ⟨w', hw'⟩ := isOkE_iff.mp hok
  rw [applyW_of_ok hw']
  unfold executeRecurringPayment at hw'
  by_cases c1 : (w.rp.recurringPayments id).id = 0
  · rw [if_pos c1] at hw'; exact Except.noConfusion hw'
  rw [if_neg c1] at hw'
  by_cases c2 : ¬ (w.rp.recurringPayments id).isActive = true
  · rw [if_pos c2] at hw'; exact Except.noConfusion hw'
  rw [if_neg c2] at hw'
  by_cases c3 : now < (w.rp.recurringPayments id).nextPaymentDue
  · rw [if_pos c3] at hw'; exact Except.noConfusion hw'
  rw [if_neg c3] at hw'
  refine ⟨c1, not_not.mp c2, Nat.not_lt.mp c3, ?_⟩
  dsimp only at hw'
  split at hw'
  · exact Except.noConfusion hw'
  · have hrec := Except.ok.inj hw'
    subst hrec
    simp

/-- A combined world for the C6 witness: the scheduler contract lives at
address `5` and holds `PAYMENT_MANAGER_ROLE` on the processor (as deployments
grant it, so the empty-signature delegation path works); subscription `42`
(payer `3`, payee `6`, token `7`, amount `10000`, frequency `100`) is Active
and due at `50`. -/
def wC6 : World where
  pp := { feeCollector := 9
          platformFeePercentage := 250
          payments := fun _ => PaymentRecord.zero
          processedPayments := fun _ => false
          isPaymentManager := fun a => a == 5
          balances := fun _ _ => 1000000 }
  rp := { recurringPayments := fun k =>
            if k = 42 then ⟨42, 3, 6, 7, 10000, 100, 50, true, 0⟩
            else RecurringPayment.zero
          isPaymentManagerRP := fun _ => false }

/-- Witness for C6: executing subscription `42` late, at `now = 60 > 50`,
succeeds and moves `nextPaymentDue` to `50 + 100 = 150` — not to `160`. -/
theorem executeRecurringPayment_schedule_witness :
    isOkE (executeRecurringPayment recover0 5 42 60 wC6) = true ∧
    ((applyW (executeRecurringPayment recover0 5 42 60) wC6).rp.recurringPayments
      42).nextPaymentDue = 150 := by
  have h := executeRecurringPayment_schedule recover0 5 42 60 wC6 (by rfl)
  exact ⟨by rfl, h.2.2.2⟩

/-! ## TokenRegistry (the `TokenRegistry` contract) -/

/-- `ITokenRegistry.TokenInfo`. -/
structure TokenInfo where
  symbol : String
  tokenAddress : Address
  decimals : Nat
  isEnabled : Bool
  minimumTransferAmount : Nat
deriving DecidableEq, Repr

/-- The all-zero token info (unset mapping entry; a zero `tokenAddress` is the
registry's "token does not exist" marker). -/
def TokenInfo.zero : TokenInfo := ⟨"", 0, 0, false, 0⟩

/-- `ITokenRegistry.PriceFeed`; `lastPrice = 0` means "unavailable". -/
structure PriceFeed where
  feedAddress : Address
  lastPrice : Nat
  lastUpdateTimestamp : Nat
deriving DecidableEq, Repr

/-- The all-zero price feed (unset mapping entry). -/
def PriceFeed.zero : PriceFeed := ⟨0, 0, 0⟩

/-- Storage of the `TokenRegistry` contract (the parts `convertAmount`
reads). -/
structure TRState where
  tokenInfos : String → TokenInfo
  priceFeeds : String → PriceFeed

/-- `TokenRegistry.convertAmount` (lines 164–193 of the source): existence
checks, identity short-circuit on equal symbols (the source compares the
keccak of the symbol bytes, i.e. string equality), price-availability checks,
then the two-step truncating conversion through a USD-scaled value. -/
def convertAmount (fromSymbol toSymbol : String) (amount : Nat) (s : TRState) :
    Except Err Nat :=
  if (s.tokenInfos fromSymbol).tokenAddress = 0 then .error .tokenUnknown
  else if (s.tokenInfos toSymbol).tokenAddress = 0 then .error .tokenUnknown
  else if fromSymbol = toSymbol then .ok amount
  else if (s.priceFeeds fromSymbol).lastPrice = 0 then .error .priceUnavailable
  else if (s.priceFeeds toSymbol).lastPrice = 0 then .error .priceUnavailable
  else do
    let p ← mulCheck amount (s.priceFeeds fromSymbol).lastPrice
    let powFrom ← powCheck 10 (s.tokenInfos fromSymbol).decimals
    let valueInUSD := p / powFrom
    let powTo ← powCheck 10 (s.tokenInfos toSymbol).decimals
    let q ← mulCheck valueInUSD powTo
    .ok (q / (s.priceFeeds toSymbol).lastPrice)

/-- C7: whenever `convertAmount` returns a value for distinct symbols, the
value is exactly `(amount * priceFrom / 10 ^ decimalsFrom) * 10 ^ decimalsTo
/ priceTo` with truncating division, and both tokens were known with nonzero
prices. -/
theorem convertAmount_formula (fromSymbol toSymbol : String) (amount r : Nat)
    (s : TRState) (hne : fromSymbol ≠ toSymbol)
    (h : convertAmount fromSymbol toSymbol amount s = .ok r) :
    r = amount * (s.priceFeeds fromSymbol).lastPrice /
          10 ^ (s.tokenInfos fromSymbol).decimals *
          10 ^ (s.tokenInfos toSymbol).decimals /
          (s.priceFeeds toSymbol).lastPrice ∧
    (s.tokenInfos fromSymbol).tokenAddress ≠ 0 ∧
    (s.tokenInfos toSymbol).tokenAddress ≠ 0 ∧
    (s.priceFeeds fromSymbol).lastPrice ≠ 0 ∧
    (s.priceFeeds toSymbol).lastPrice ≠ 0 := by
  unfold convertAmount at h
  by_cases c1 : (s.tokenInfos fromSymbol).tokenAddress = 0
  · rw [if_pos c1] at h; exact Except.noConfusion h
  rw [if_neg c1] at h
  by_cases c2 : (s.tokenInfos toSymbol).tokenAddress = 0
  · rw [if_pos c2] at h; exact Except.noConfusion h
  rw [if_neg c2] at h
  rw [if_neg hne] at h
  by_cases c3 : (s.priceFeeds fromSymbol).lastPrice = 0
  · rw [if_pos c3] at h; exact Except.noConfusion h
  rw [if_neg c3] at h
  by_cases c4 : (s.priceFeeds toSymbol).lastPrice = 0
  · rw [if_pos c4] at h; exact Except.noConfusion h
  rw [if_neg c4] at h
  simp only [exceptBind_ok, mulCheck_ok, powCheck_ok, Except.ok.injEq] at h
  obtain ⟨p, ⟨hp, rfl⟩, pf, ⟨hpf, rfl⟩, pt, ⟨hpt, rfl⟩, q, ⟨hq, rfl⟩, hr⟩ := h
  exact ⟨hr.symm, c1, c2, c3, c4⟩

/-- The spec's C7 example registry: USDC (6 decimals, price `1.00e8`) and ETH
(18 decimals, price `3000.00e8`). -/
def trC7State : TRState where
  tokenInfos := fun sym =>
    if sym = "USDC" then ⟨"USDC", 100, 6, true, 0⟩
    else if sym = "ETH" then ⟨"ETH", 200, 18, true, 0⟩
    else TokenInfo.zero
  priceFeeds := fun sym =>
    if sym = "USDC" then ⟨11, 100000000, 5⟩
    else if sym = "ETH" then ⟨12, 300000000000, 5⟩
    else PriceFeed.zero

/-- Witness for C7, the spec's example: 3000 USDC (`3000_000000` six-decimal
units) converts to 1 ETH (`1_000000000000000000` eighteen-decimal units), and
the returned value equals the two-step formula. -/
theorem convertAmount_formula_witness :
    convertAmount "USDC" "ETH" 3000000000 trC7State = .ok 1000000000000000000 ∧
    (1000000000000000000 : Nat) =
      3000000000 * (trC7State.priceFeeds "USDC").lastPrice /
        10 ^ (trC7State.tokenInfos "USDC").decimals *
        10 ^ (trC7State.tokenInfos "ETH").decimals /
        (trC7State.priceFeeds "ETH").lastPrice := by
  refine ⟨by rfl, ?_⟩
  exact (convertAmount_formula "USDC" "ETH" 3000000000 1000000000000000000 trC7State
    (by decide) (by rfl)).1

/-- C8: `convertAmount` fails when either symbol is unknown, fails for
distinct known symbols when either price is zero, and is the identity on any
known token regardless of the price table (the identity short-circuit never
reads a price, so a token with no feed still converts to itself). -/
theorem convertAmount_identity_and_guards (fromSymbol toSymbol : String)
    (amount : Nat) (s : TRState) :
    ((s.tokenInfos fromSymbol).tokenAddress = 0 ∨
        (s.tokenInfos toSymbol).tokenAddress = 0 →
      isOkE (convertAmount fromSymbol toSymbol amount s) = false) ∧
    ((s.tokenInfos fromSymbol).tokenAddress ≠ 0 →
      (s.tokenInfos toSymbol).tokenAddress ≠ 0 →
      fromSymbol ≠ toSymbol →
      ((s.priceFeeds fromSymbol).lastPrice = 0 ∨
        (s.priceFeeds toSymbol).lastPrice = 0) →
      isOkE (convertAmount fromSymbol toSymbol amount s) = false) ∧
    ((s.tokenInfos fromSymbol).tokenAddress ≠ 0 →
      convertAmount fromSymbol fromSymbol amount s = .ok amount) := by
  refine ⟨?_, ?_, ?_⟩
  · intro h
    unfold convertAmount
    by_cases c1 : (s.tokenInfos fromSymbol).tokenAddress = 0
    · rw [if_pos c1]; rfl
    · rcases h with h | h
      · exact absurd h c1
      · rw [if_neg c1, if_pos h]; rfl
  · intro h1 h2 hne h3
    unfold convertAmount
    rw [if_neg h1, if_neg h2, if_neg hne]
    rcases h3 with h | h
    · rw [if_pos h]; rfl
    · by_cases c : (s.priceFeeds fromSymbol).lastPrice = 0
      · rw [if_pos c]; rfl
      · rw [if_neg c, if_pos h]; rfl
  · intro h1
    unfold convertAmount
    rw [if_neg h1, if_neg h1, if_pos rfl]

/-- A registry for the C8 witness: tokens `XYZ` and `USDT` are registered but
neither has a price feed set (`lastPrice = 0` everywhere). -/
def trC8State : TRState where
  tokenInfos := fun sym =>
    if sym = "XYZ" then ⟨"XYZ", 300, 8, true, 0⟩
    else if sym = "USDT" then ⟨"USDT", 400, 6, true, 0⟩
    else TokenInfo.zero
  priceFeeds := fun _ => PriceFeed.zero

/-- Witness for C8: identity conversion of the feedless token `XYZ` returns
the amount unchanged, converting to the unknown symbol `ABC` fails, and the
distinct known pair with zero prices fails. -/
theorem convertAmount_identity_and_guards_witness :
    convertAmount "XYZ" "XYZ" 12345 trC8State = .ok 12345 ∧
    isOkE (convertAmount "XYZ" "ABC" 5 trC8State) = false ∧
    isOkE (convertAmount "XYZ" "USDT" 5 trC8State) = false := by
  refine ⟨?_, ?_, ?_⟩
  · exact (convertAmount_identity_and_guards "XYZ" "XYZ" 12345 trC8State).2.2 (by decide)
  · exact (convertAmount_identity_and_guards "XYZ" "ABC" 5 trC8State).1 (Or.inr (by decide))
  · exact (convertAmount_identity_and_guards "XYZ" "USDT" 5 trC8State).2.1 (by decide)
      (by decide) (by decide) (Or.inl (by decide))

/-! ## DocumentRegistry (the `DocumentRegistry` contract) -/

/-- `IDocumentRegistry.DocumentType`. -/
inductive DocumentType where
  | invoice
  | payrollRecord
  | contractDoc
  | receipt
  | statement
  | other
deriving DecidableEq, Repr

/-- `IDocumentRegistry.Document`. -/
structure Document where
  docHash : Bytes32
  registeredBy : Address
  timestamp : Nat
  docType : DocumentType
  docReference : String
  isRevoked : Bool
deriving DecidableEq, Repr

/-- The all-zero document (unset mapping entry; the zero enum value is the
first variant). -/
def Document.zero : Document := ⟨0, 0, 0, .invoice, "", false⟩

/-- Storage of the `DocumentRegistry` contract. -/
structure DRState where
  documents : Bytes32 → Document
  userDocuments : Address → List Bytes32
  isDocumentManager : Address → Bool

/-- `DocumentRegistry.registerDocument` (lines 32–52 of the source):
`DOCUMENT_MANAGER_ROLE` gate (the modifier runs first), nonzero-hash and
not-yet-registered checks, then the store and the personal-index append. -/
def registerDocument (sender : Address) (docHash : Bytes32) (docType : DocumentType)
    (docReference : String) (now : Nat) (s : DRState) : Except Err DRState :=
  if ¬ s.isDocumentManager sender then .error .notDocumentManager
  else if docHash = 0 then .error .docInvalidHash
  else if (s.documents docHash).docHash ≠ 0 then .error .docAlreadyRegistered
  else .ok { s with
    documents := fun k =>
      if k = docHash then ⟨docHash, sender, now, docType, docReference, false⟩
      else s.documents k,
    userDocuments := fun a =>
      if a = sender then s.userDocuments a ++ [docHash] else s.userDocuments a }

/-- The loop body of `batchRegisterDocuments`. -/
def registerLoop (sender : Address) (now : Nat) :
    List (Bytes32 × DocumentType × String) → DRState → Except Err DRState
  | [], s => .ok s
  | (docHash, docType, docReference) :: rest, s =>
    if docHash = 0 then .error .docInvalidHash
    else if (s.documents docHash).docHash ≠ 0 then .error .docAlreadyRegistered
    else registerLoop sender now rest { s with
      documents := fun k =>
        if k = docHash then ⟨docHash, sender, now, docType, docReference, false⟩
        else s.documents k,
      userDocuments := fun a =>
        if a = sender then s.userDocuments a ++ [docHash] else s.userDocuments a }

/-- Pointwise zip of the three parallel calldata arrays of a document batch. -/
def zip3D : List Bytes32 → List DocumentType → List String →
    List (Bytes32 × DocumentType × String)
  | a :: as, b :: bs, c :: cs => (a, b, c) :: zip3D as bs cs
  | _, _, _ => []

/-- `DocumentRegistry.batchRegisterDocuments` (lines 60–87 of the source). -/
def batchRegisterDocuments (sender : Address) (docHashes : List Bytes32)
    (docTypes : List DocumentType) (docReferences : List String) (now : Nat)
    (s : DRState) : Except Err DRState :=
  if ¬ s.isDocumentManager sender then .error .notDocumentManager
  else if docHashes.length ≠ docTypes.length then .error .arrayLengthMismatch
  else if docTypes.length ≠ docReferences.length then .error .arrayLengthMismatch
  else registerLoop sender now (zip3D docHashes docTypes docReferences) s

/-- `DocumentRegistry.revokeDocument` (lines 94–105 of the source): role
gate, registered and not-already-revoked checks, then the one-way flag flip
(the `reason` only feeds the audit event). -/
def revokeDocument (sender : Address) (docHash : Bytes32) (_reason : String)
    (s : DRState) : Except Err DRState :=
  if ¬ s.isDocumentManager sender then .error .notDocumentManager
  else if (s.documents docHash).docHash = 0 then .error .docNotRegistered
  else if (s.documents docHash).isRevoked then .error .docAlreadyRevoked
  else .ok { s with
    documents := fun k =>
      if k = docHash then { s.documents docHash with isRevoked := true }
      else s.documents k }

/-- `DocumentRegistry.verifyDocument` (lines 114–125 of the source): a pure
read returning `(exists, isValid, record)` with
`isValid = exists && !revoked`. -/
def verifyDocument (docHash : Bytes32) (s : DRState) : Bool × Bool × Document :=
  let documentData := s.documents docHash
  (documentData.docHash != 0,
    (documentData.docHash != 0) && !documentData.isRevoked,
    documentData)

/-- EVM transactional semantics for the registry's state. -/
def applyDR (f : DRState → Except Err DRState) (s : DRState) : DRState :=
  match f s with
  | .ok s' => s'
  | .error _ => s

/-- C9: `revokeDocument` fails on an unregistered or already-revoked
document (for any caller), so after a successful revoke a second revoke of
the same document fails; `verifyDocument` then reports
`exists = true, isValid = false` with the stored record, and in general its
`isValid` component is literally `exists && !revoked`. -/
theorem revokeDocument_once_and_verify (sender sender2 : Address) (docHash : Bytes32)
    (reason reason2 : String) (s : DRState) :
    ((s.documents docHash).docHash = 0 ∨ (s.documents docHash).isRevoked = true →
      isOkE (revokeDocument sender docHash reason s) = false) ∧
    (isOkE (revokeDocument sender docHash reason s) = true →
      isOkE (revokeDocument sender2 docHash reason2
        (applyDR (revokeDocument sender docHash reason) s)) = false ∧
      verifyDocument docHash (applyDR (revokeDocument sender docHash reason) s) =
        (true, false, { s.documents docHash with isRevoked := true })) ∧
    (verifyDocument docHash s).2.1 =
      ((verifyDocument docHash s).1 && !(s.documents docHash).isRevoked) := by
  refine ⟨?_, ?_, rfl⟩
  · intro h
    unfold revokeDocument
    by_cases c0 : ¬ s.isDocumentManager sender
    · rw [if_pos c0]; rfl
    rw [if_neg c0]
    rcases h with h | h
    · rw [if_pos h]; rfl
    · by_cases c1 : (s.documents docHash).docHash = 0
      · rw [if_pos c1]; rfl
      · rw [if_neg c1, if_pos h]; rfl
  · intro hok
    obtain ⟨s', hs'⟩ := isOkE_iff.mp hok
    rw [applyDR, hs']
    unfold revokeDocument at hs'
    by_cases c0 : ¬ s.isDocumentManager sender
    · rw [if_pos c0] at hs'; exact Except.noConfusion hs'
    rw [if_neg c0] at hs'
    by_cases c1 : (s.documents docHash).docHash = 0
    · rw [if_pos c1] at hs'; exact Except.noConfusion hs'
    rw [if_neg c1] at hs'
    by_cases c2 : (s.documents docHash).isRevoked = true
    · rw [if_pos c2] at hs'; exact Except.noConfusion hs'
    rw [if_neg c2] at hs'
    have hstate := (Except.ok.inj hs').symm
    subst hstate
    constructor
    · unfold revokeDocument
      by_cases d0 : ¬ ({ s with
          documents := fun k =>
            if k = docHash then { s.documents docHash with isRevoked := true }
            else s.documents k } : DRState).isDocumentManager sender2
      · rw [if_pos d0]; rfl
      · rw [if_neg d0, if_neg (by simpa using c1), if_pos (by simp)]; rfl
    · simp [verifyDocument, bne_iff_ne, c1]

/-- A registry for the C9 witness: manager `1`; document `77` registered by
`1` at time `5` as an invoice, not revoked. -/
def drC9State : DRState where
  documents := fun k =>
    if k = 77 then ⟨77, 1, 5, .invoice, "inv", false⟩ else Document.zero
  userDocuments := fun a => if a = 1 then [77] else []
  isDocumentManager := fun a => a == 1

/-- Witness for C9: revoking `77` once succeeds; revoking it a second time
fails; `verifyDocument` then reports it as existing but invalid; and revoking
the unregistered hash `88` fails outright. -/
theorem revokeDocument_once_and_verify_witness :
    isOkE (revokeDocument 1 77 "late" (applyDR (revokeDocument 1 77 "late") drC9State))
      = false ∧
    verifyDocument 77 (applyDR (revokeDocument 1 77 "late") drC9State) =
      (true, false, ⟨77, 1, 5, .invoice, "inv", true⟩) ∧
    isOkE (revokeDocument 1 88 "nope" drC9State) = false := by
  have h := (revokeDocument_once_and_verify 1 1 77 "late" "late" drC9State).2.1 (by rfl)
  have h2 := (revokeDocument_once_and_verify 1 1 88 "nope" "nope" drC9State).1
    (Or.inl (by decide))
  exact ⟨h.1, h.2, h2⟩

/-- C10: document registration is capability-gated: for every caller without
the document-manager capability, both `registerDocument` and
`batchRegisterDocuments` fail with the authorization error and, by revert
semantics, store nothing. -/
theorem registerDocument_manager_gated (sender : Address) (docHash : Bytes32)
    (docType : DocumentType) (docReference : String) (now : Nat)
    (docHashes : List Bytes32) (docTypes : List DocumentType)
    (docReferences : List String) (s : DRState)
    (h : s.isDocumentManager sender = false) :
    registerDocument sender docHash docType docReference now s =
      .error .notDocumentManager ∧
    batchRegisterDocuments sender docHashes docTypes docReferences now s =
      .error .notDocumentManager ∧
    applyDR (registerDocument sender docHash docType docReference now) s = s ∧
    applyDR (batchRegisterDocuments sender docHashes docTypes docReferences now) s = s := by
  have h1 : registerDocument sender docHash docType docReference now s =
      .error .notDocumentManager := by
    unfold registerDocument
    rw [if_pos (by simp [h])]
  have h2 : batchRegisterDocuments sender docHashes docTypes docReferences now s =
      .error .notDocumentManager := by
    unfold batchRegisterDocuments
    rw [if_pos (by simp [h])]
  exact ⟨h1, h2, by rw [applyDR, h1], by rw [applyDR, h2]⟩

/-- Witness for C10: the non-manager `2` can register nothing, singly or in
batch, against the C9 registry. -/
theorem registerDocument_manager_gated_witness :
    registerDocument 2 99 .receipt "r" 6 drC9State = .error .notDocumentManager ∧
    batchRegisterDocuments 2 [99] [.receipt] ["r"] 6 drC9State =
      .error .notDocumentManager ∧
    applyDR (registerDocument 2 99 .receipt "r" 6) drC9State = drC9State ∧
    applyDR (batchRegisterDocuments 2 [99] [.receipt] ["r"] 6) drC9State = drC9State := by
  exact registerDocument_manager_gated 2 99 .receipt "r" 6 [99] [.receipt] ["r"]
    drC9State (by decide)

end Swish
